import Mathlib

/-
Verification of the CDP multiplexing layer implemented in
`packages/renderer/src/browser/Connection.ts`.

The file shallow-embeds the two classes `Connection` and `CDPSession`
(and the helpers `createProtocolError` / `rewriteError`) as pure Lean
functions over explicit state.  JavaScript `Map`s become association
lists that keep insertion order (JS `Map.set` on an existing key keeps
the original position; iteration is in insertion order).  Promise
resolution/rejection, event emission and transport writes are modelled
as an output list of events (`Ev`), produced by each operation next to
its state update.  Values that this layer treats as opaque payloads
(command results, event params beyond the structurally used fields) are
modelled by an opaque token type `Payload`.

JavaScript truthiness is modelled where the source relies on it:
`object.id` is truthy iff present and nonzero, `object.sessionId` iff
present and nonempty.  A runtime exception thrown inside the async
message router (destructuring absent `params`, reading `type` of an
absent `targetInfo`, or the session router's failed assertion) is
modelled by an `ok : Bool` flag set to `false`, with the state as
mutated up to the throw point.
-/

namespace CDP

/-- Opaque stand-in for JSON payloads this layer never inspects. -/
abbrev Payload := Nat

/-- Nested target descriptor of an attach notification
(`object.params.targetInfo`), and the argument of `createSession`. -/
structure TargetInfo where
  type : String
  targetId : String
deriving DecidableEq, Repr

/-- The `params` field of an envelope: only `sessionId`, `targetInfo`,
`targetId` and `flatten` are structurally used by this layer; everything
else is opaque (`payload`). -/
structure Params where
  sessionId : Option String := none
  targetInfo : Option TargetInfo := none
  targetId : Option String := none
  flatten : Option Bool := none
  payload : Payload := 0
deriving DecidableEq, Repr

/-- The `error` field of a response envelope: `{message, code, data?}`.
`data : Option String` models presence of the `data` key (the source
checks `'data' in object.error`) and its stringification. -/
structure ErrObj where
  message : String
  code : Int
  data : Option String := none
deriving DecidableEq, Repr

/-- One parsed wire message (the result of `JSON.parse` in `#onMessage`).
All fields are optional, as on the wire. -/
structure Envelope where
  id : Option Nat := none
  sessionId : Option String := none
  method : Option String := none
  params : Option Params := none
  result : Option Payload := none
  error : Option ErrObj := none
deriving DecidableEq, Repr

/-- JS truthiness of `object.id` (a number: truthy iff present and nonzero). -/
def Envelope.idTruthy (e : Envelope) : Bool :=
  match e.id with
  | some n => n != 0
  | none => false

/-- The numeric id used for table lookups once `idTruthy` holds. -/
def Envelope.idVal (e : Envelope) : Nat := e.id.getD 0

/-- JS truthiness of `object.sessionId` (a string: truthy iff present and nonempty). -/
def Envelope.sessionIdTruthy (e : Envelope) : Bool :=
  match e.sessionId with
  | some s => s != ""
  | none => false

/-- One entry of a pending-call table (`ConnectionCallback` in the source).
The stored `resolve`/`reject` handles and the pre-allocated `ProtocolError`
are modelled by the settle events the router emits; the entry keeps the
diagnostic `method` name used to build error text. -/
structure ConnectionCallback where
  method : String
deriving DecidableEq, Repr

/-- Association-list model of a JS `Map`: first (and only) binding wins. -/
def mapGet {K V : Type} [DecidableEq K] (m : List (K × V)) (k : K) : Option V :=
  match m with
  | [] => none
  | (k', v) :: rest => if k' = k then some v else mapGet rest k

/-- JS `Map.set`: update in place when the key exists (keeping its
insertion position), append otherwise. -/
def mapSet {K V : Type} [DecidableEq K] (m : List (K × V)) (k : K) (v : V) :
    List (K × V) :=
  if (mapGet m k).isSome then
    m.map (fun p => if p.1 = k then (k, v) else p)
  else m ++ [(k, v)]

/-- JS `Map.delete`. -/
def mapDelete {K V : Type} [DecidableEq K] (m : List (K × V)) (k : K) :
    List (K × V) :=
  m.filter (fun p => decide (p.1 ≠ k))

/-- State of one `CDPSession`.  `connection : Bool` models the nullable
back-reference `#connection` (there is a single Connection in scope, so
only presence matters); `sessionId : Option String` because the id is
copied verbatim from `object.params.sessionId`, which can be absent. -/
structure CDPSession where
  sessionId : Option String
  targetType : String
  callbacks : List (Nat × ConnectionCallback)
  connection : Bool
deriving DecidableEq, Repr

/-- State of the `Connection`.  The session map is keyed by the raw
(possibly absent) session id, mirroring the JS `Map` keyed by whatever
`object.params.sessionId` held. -/
structure Connection where
  url : String
  lastId : Nat
  sessions : List (Option String × CDPSession)
  closed : Bool
  callbacks : List (Nat × ConnectionCallback)
deriving DecidableEq, Repr

/-- Identifies which object an observable effect happened on. -/
inductive Owner where
  | conn
  | sess (sessionId : Option String)
deriving DecidableEq, Repr

/-- A serialized message handed to `transport.send` by `_rawSend`. -/
structure WireMsg where
  sessionId : Option String := none
  method : String
  params : Option Params := none
  id : Nat
deriving DecidableEq, Repr

/-- Observable effects: transport writes, promise settlements
(resolve / reject of a pending call, identified by its request id), and
event emissions (`emit` calls, including the attach/detach/disconnect
notifications whose JS payload is a session object, carried here by its
session id). -/
inductive Ev where
  | transportSend (m : WireMsg)
  | settleOk (owner : Owner) (id : Nat) (result : Option Payload)
  | settleErr (owner : Owner) (id : Nat) (message : String)
      (originalMessage : Option String)
  | emitEvent (owner : Owner) (method : Option String) (params : Option Params)
  | emitAttached (owner : Owner) (sessionId : Option String)
  | emitDetached (owner : Owner) (sessionId : Option String)
  | emitDisconnected (owner : Owner)
deriving DecidableEq, Repr

/-- Whether an event settles (resolves or rejects) the pending call `b`. -/
def Ev.settlesId : Ev → Nat → Bool
  | .settleOk _ i _, b => i == b
  | .settleErr _ i _ _, b => i == b
  | _, _ => false

/-- Whether an event settles any pending call. -/
def Ev.isSettle : Ev → Bool
  | .settleOk _ _ _ => true
  | .settleErr _ _ _ _ => true
  | _ => false

/-- Whether an event is a disconnected emission. -/
def Ev.isDisconnected : Ev → Bool
  | .emitDisconnected _ => true
  | _ => false

/-- Replaces the owner tag of an event, used to compare the Session
router's settlements with the Connection router's. -/
def Ev.setOwner (o : Owner) : Ev → Ev
  | .transportSend m => .transportSend m
  | .settleOk _ i r => .settleOk o i r
  | .settleErr _ i m om => .settleErr o i m om
  | .emitEvent _ m p => .emitEvent o m p
  | .emitAttached _ s => .emitAttached o s
  | .emitDetached _ s => .emitDetached o s
  | .emitDisconnected _ => .emitDisconnected o

/-- Request ids of a pending-call table. -/
def idsOf (m : List (Nat × ConnectionCallback)) : List Nat := m.map Prod.fst

/-- Message text of `createProtocolError`: embeds the originating method
name, the server message, and ` ${data}` when the `data` key is present. -/
def createProtocolErrorMsg (method : String) (err : ErrObj) : String :=
  let message := "Protocol error (" ++ method ++ "): " ++ err.message
  match err.data with
  | some d => message ++ " " ++ d
  | none => message

/-- Rejection text used by `#onClose` / `_onClosed` for the call `method`. -/
def targetClosedMsg (method : String) : String :=
  "Protocol error (" ++ method ++ "): Target closed."

/-- Rejection text of `CDPSession.send` on a detached session. -/
def sessionClosedMsg (method : String) (targetType : String) : String :=
  "Protocol error (" ++ method ++ "): Session closed. Most likely the " ++
    targetType ++ " has been closed."

/-- Connection._rawSend: assigns the next id from the shared counter,
serializes the message with that id, writes it to the transport, and
returns the id. -/
def Connection.rawSend (c : Connection) (sessionId : Option String)
    (method : String) (params : Option Params) :
    Connection × Nat × List Ev :=
  let id := c.lastId + 1
  ({ c with lastId := id }, id,
    [Ev.transportSend { sessionId := sessionId, method := method,
                        params := params, id := id }])

/-- Connection.send: `_rawSend {method, params}` then register the pending
call under the returned id. -/
def Connection.send (c : Connection) (method : String)
    (params : Option Params) : Connection × List Ev :=
  let (c1, id, evs) := c.rawSend none method params
  ({ c1 with callbacks := mapSet c1.callbacks id { method := method } }, evs)

/-- Immediate outcome of `CDPSession.send`: the promise is either created
pending (registered under `id`) or already rejected. -/
inductive SendResult where
  | rejected (message : String)
  | pending (id : Nat)
deriving DecidableEq, Repr

/-- CDPSession.send: with `#connection` absent, an immediately rejected
promise naming the method and the target type; otherwise delegate to the
owning connection's `_rawSend` with this session's id attached and
register the pending call in the session's own table. -/
def CDPSession.send (s : CDPSession) (c : Connection) (method : String)
    (params : Option Params) :
    CDPSession × Connection × List Ev × SendResult :=
  if s.connection = false then
    (s, c, [], .rejected (sessionClosedMsg method s.targetType))
  else
    let (c1, id, evs) := c.rawSend s.sessionId method params
    ({ s with callbacks := mapSet s.callbacks id { method := method } },
      c1, evs, .pending id)

/-- CDPSession._onClosed: reject every pending call with the
target-closed text, clear the table, drop the connection reference, emit
the session's Disconnected event. -/
def CDPSession.onClosed (s : CDPSession) : CDPSession × List Ev :=
  ({ s with callbacks := [], connection := false },
    (s.callbacks.map fun p =>
      Ev.settleErr (.sess s.sessionId) p.1 (targetClosedMsg p.2.method) none)
    ++ [Ev.emitDisconnected (.sess s.sessionId)])

/-- CDPSession._onMessage.  `none` models the thrown assertion failure
(`assert(!object.id)` with a truthy unmatched id); the helper `assert`
is imported by the source from a module not in this tree and raises on a
false condition. -/
def CDPSession.onMessage (s : CDPSession) (e : Envelope) :
    Option (CDPSession × List Ev) :=
  let cb? := if e.idTruthy then mapGet s.callbacks e.idVal else none
  match cb? with
  | some cb =>
      some ({ s with callbacks := mapDelete s.callbacks e.idVal },
        [match e.error with
         | some err =>
             Ev.settleErr (.sess s.sessionId) e.idVal
               (createProtocolErrorMsg cb.method err) (some err.message)
         | none => Ev.settleOk (.sess s.sessionId) e.idVal e.result])
  | none =>
      if e.idTruthy then none
      else some (s, [Ev.emitEvent (.sess s.sessionId) e.method e.params])

/-- Steps 1-2 of `Connection.#onMessage`: the two reserved structural
notifications.  `ok = false` models the TypeError thrown when `params`
(or `params.targetInfo` for an attach) is absent. -/
def Connection.handleReserved (c : Connection) (e : Envelope) :
    Connection × List Ev × Bool :=
  if e.method = some "Target.attachedToTarget" then
    match e.params with
    | none => (c, [], false)
    | some p =>
      match p.targetInfo with
      | none => (c, [], false)
      | some ti =>
        let session : CDPSession :=
          { sessionId := p.sessionId, targetType := ti.type,
            callbacks := [], connection := true }
        let sessions1 := mapSet c.sessions p.sessionId session
        let parentEvs :=
          match mapGet sessions1 e.sessionId with
          | some parent =>
              [Ev.emitAttached (.sess parent.sessionId) p.sessionId]
          | none => []
        ({ c with sessions := sessions1 },
          Ev.emitAttached .conn p.sessionId :: parentEvs, true)
  else if e.method = some "Target.detachedFromTarget" then
    match e.params with
    | none => (c, [], false)
    | some p =>
      match mapGet c.sessions p.sessionId with
      | none => (c, [], true)
      | some session =>
        let closeEvs := session.onClosed.2
        let sessions1 := mapDelete c.sessions p.sessionId
        let parentEvs :=
          match mapGet sessions1 e.sessionId with
          | some parent =>
              [Ev.emitDetached (.sess parent.sessionId) session.sessionId]
          | none => []
        ({ c with sessions := sessions1 },
          closeEvs ++ Ev.emitDetached .conn session.sessionId :: parentEvs,
          true)
  else (c, [], true)

/-- Steps 3-5 of `Connection.#onMessage`: session-scoped routing, then
the connection's own pending-call settlement, then bare-event emission.
`ok = false` propagates a session router assertion failure. -/
def Connection.routeTail (c : Connection) (e : Envelope) :
    Connection × List Ev × Bool :=
  if e.sessionIdTruthy then
    match mapGet c.sessions e.sessionId with
    | some session =>
      match session.onMessage e with
      | some (s', evs) =>
          ({ c with sessions := mapSet c.sessions e.sessionId s' }, evs, true)
      | none => (c, [], false)
    | none => (c, [], true)
  else if e.idTruthy then
    match mapGet c.callbacks e.idVal with
    | some cb =>
      let ev :=
        match e.error with
        | some err =>
            Ev.settleErr .conn e.idVal
              (createProtocolErrorMsg cb.method err) (some err.message)
        | none => Ev.settleOk .conn e.idVal e.result
      ({ c with callbacks := mapDelete c.callbacks e.idVal }, [ev], true)
    | none => (c, [], true)
  else (c, [Ev.emitEvent .conn e.method e.params], true)

/-- Connection.#onMessage: the reserved-notification steps run first;
when they throw, the rest of the handler is skipped (state keeps the
mutations made before the throw). -/
def Connection.onMessage (c : Connection) (e : Envelope) :
    Connection × List Ev × Bool :=
  let r1 := c.handleReserved e
  if r1.2.2 then
    let r2 := r1.1.routeTail e
    (r2.1, r1.2.1 ++ r2.2.1, r2.2.2)
  else (r1.1, r1.2.1, false)

/-- Connection.#onClose: guarded by `closed`; rejects and clears the
connection's own table, closes every live session, clears the session
map, emits Disconnected.  (The source also detaches the transport's
`onmessage`/`onclose` hooks, a transport-side effect modelled by the
`closed` guard in `runStep`.) -/
def Connection.onClose (c : Connection) : Connection × List Ev :=
  if c.closed then (c, [])
  else
    ({ c with closed := true, callbacks := [], sessions := [] },
      (c.callbacks.map fun p =>
        Ev.settleErr .conn p.1 (targetClosedMsg p.2.method) none)
      ++ (c.sessions.map fun q => q.2.onClosed.2).flatten
      ++ [Ev.emitDisconnected .conn])

/-- Connection.session: lookup by (string) session id. -/
def Connection.session (c : Connection) (sessionId : String) :
    Option CDPSession :=
  mapGet c.sessions (some sessionId)

/-- First half of `Connection.createSession`: issue the attach command
(`this.send('Target.attachToTarget', {targetId, flatten: true})`). -/
def Connection.createSessionIssue (c : Connection) (ti : TargetInfo) :
    Connection × List Ev :=
  c.send "Target.attachToTarget"
    (some { targetId := some ti.targetId, flatten := some true })

/-- Second half of `Connection.createSession`, resumed when the attach
command's result (carrying `sessionId`) arrives: return the session
registered under that id, or throw the creation error. -/
def Connection.createSessionResume (c : Connection)
    (sessionId : Option String) : Except String CDPSession :=
  match mapGet c.sessions sessionId with
  | some s => .ok s
  | none => .error "CDPSession creation failed."

/-- One external stimulus: a transport delivery, a transport closure, or
a send issued by a caller through the connection or through the session
currently registered under the given id. -/
inductive Step where
  | deliver (e : Envelope)
  | close
  | connSend (method : String) (params : Option Params)
  | sessSend (sid : Option String) (method : String) (params : Option Params)
deriving DecidableEq, Repr

/-- Effect of one stimulus.  After closure the transport hooks are
detached, so deliveries and the transport's onclose no longer reach the
connection. -/
def runStep (c : Connection) (st : Step) : Connection × List Ev :=
  match st with
  | .deliver e =>
      if c.closed then (c, [])
      else ((c.onMessage e).1, (c.onMessage e).2.1)
  | .close => c.onClose
  | .connSend m p => c.send m p
  | .sessSend sid m p =>
      match mapGet c.sessions sid with
      | some s =>
          let r := s.send c m p
          ({ r.2.1 with sessions := mapSet r.2.1.sessions sid r.1 }, r.2.2.1)
      | none => (c, [])

/-- Run a sequence of stimuli, concatenating the emitted events. -/
def run (c : Connection) (steps : List Step) : Connection × List Ev :=
  match steps with
  | [] => (c, [])
  | st :: rest =>
      ((run (runStep c st).1 rest).1,
        (runStep c st).2 ++ (run (runStep c st).1 rest).2)

/-- The request ids written to the transport, in emission order. -/
def sentIds (evs : List Ev) : List Nat :=
  evs.filterMap fun ev =>
    match ev with
    | .transportSend m => some m.id
    | _ => none

/-- Substring containment, used to state the error-text contracts. -/
def StrContains (s sub : String) : Prop :=
  ∃ a b : String, s = a ++ sub ++ b

/-- The id `b` is bounded by the counter and absent from every
pending-call table of `c`: the standing of an orphaned request id. -/
def BannedIn (b : Nat) (c : Connection) : Prop :=
  b ≤ c.lastId ∧ b ∉ idsOf c.callbacks ∧
  ∀ q ∈ c.sessions, b ∉ idsOf q.2.callbacks

section MapLemmas

variable {K V : Type} [DecidableEq K]

theorem mapGet_nil (k : K) : mapGet ([] : List (K × V)) k = none := rfl

theorem mapGet_cons (x : K × V) (rest : List (K × V)) (k : K) :
    mapGet (x :: rest) k = if x.1 = k then some x.2 else mapGet rest k := rfl

theorem mapDelete_nil (k : K) : mapDelete ([] : List (K × V)) k = [] := rfl

theorem mapDelete_cons (x : K × V) (rest : List (K × V)) (k : K) :
    mapDelete (x :: rest) k =
      if x.1 = k then mapDelete rest k else x :: mapDelete rest k := by
  simp only [mapDelete, List.filter_cons]
  by_cases h : x.1 = k <;> simp [h]

theorem mapGet_append (m m' : List (K × V)) (k : K) :
    mapGet (m ++ m') k =
      match mapGet m k with
      | some v => some v
      | none => mapGet m' k := by
  induction m with
  | nil => simp [mapGet]
  | cons x rest ih =>
      rw [List.cons_append, mapGet_cons, mapGet_cons]
      by_cases h : x.1 = k <;> simp [h, ih]

theorem mapGet_replace_self (m : List (K × V)) (k : K) (v : V) :
    mapGet (m.map fun p => if p.1 = k then (k, v) else p) k =
      (mapGet m k).map (fun _ => v) := by
  induction m with
  | nil => simp [mapGet]
  | cons x rest ih =>
      rw [List.map_cons, mapGet_cons, mapGet_cons]
      by_cases h : x.1 = k <;> simp [h, ih]

theorem mapGet_replace_ne (m : List (K × V)) (k k' : K) (v : V)
    (h : k' ≠ k) :
    mapGet (m.map fun p => if p.1 = k then (k, v) else p) k' = mapGet m k' := by
  induction m with
  | nil => simp [mapGet]
  | cons x rest ih =>
      rw [List.map_cons, mapGet_cons, mapGet_cons]
      by_cases h2 : x.1 = k
      · simp [h2, Ne.symm h, ih]
      · by_cases h3 : x.1 = k' <;> simp [h2, h3, h, ih]

theorem mapGet_set_self (m : List (K × V)) (k : K) (v : V) :
    mapGet (mapSet m k v) k = some v := by
  unfold mapSet
  split
  · next h =>
      rw [mapGet_replace_self]
      cases h2 : mapGet m k with
      | none => rw [h2] at h; simp at h
      | some w => simp
  · rw [mapGet_append]
    next h =>
      cases h2 : mapGet m k with
      | none => simp [mapGet]
      | some w => rw [h2] at h; simp at h

theorem mapGet_set_ne (m : List (K × V)) (k k' : K) (v : V) (h : k' ≠ k) :
    mapGet (mapSet m k v) k' = mapGet m k' := by
  unfold mapSet
  split
  · exact mapGet_replace_ne m k k' v h
  · rw [mapGet_append]
    cases h2 : mapGet m k' with
    | none => simp [mapGet, Ne.symm h]
    | some w => simp

theorem mapGet_delete_self (m : List (K × V)) (k : K) :
    mapGet (mapDelete m k) k = none := by
  induction m with
  | nil => simp [mapDelete, mapGet]
  | cons x rest ih =>
      rw [mapDelete_cons]
      by_cases h : x.1 = k
      · simpa [h] using ih
      · rw [if_neg h, mapGet_cons, if_neg h]
        exact ih

theorem mapGet_delete_ne (m : List (K × V)) (k k' : K) (h : k' ≠ k) :
    mapGet (mapDelete m k) k' = mapGet m k' := by
  induction m with
  | nil => simp [mapDelete, mapGet]
  | cons x rest ih =>
      rw [mapDelete_cons, mapGet_cons]
      by_cases h2 : x.1 = k
      · rw [if_pos h2, ih, if_neg (h2 ▸ fun hh => h hh.symm)]
      · rw [if_neg h2, mapGet_cons, ih]

theorem mapGet_none_keys {m : List (K × V)} {k : K}
    (h : mapGet m k = none) : ∀ q ∈ m, q.1 ≠ k := by
  induction m with
  | nil => intro q hq; simp at hq
  | cons x rest ih =>
      rw [mapGet_cons] at h
      intro q hq
      by_cases hx : x.1 = k
      · rw [if_pos hx] at h; exact absurd h (by simp)
      · rw [if_neg hx] at h
        rcases List.mem_cons.mp hq with rfl | hq2
        · exact hx
        · exact ih h q hq2

theorem mem_mapSet {m : List (K × V)} {k : K} {v : V} {q : K × V}
    (h : q ∈ mapSet m k v) : q = (k, v) ∨ (q ∈ m ∧ q.1 ≠ k) := by
  unfold mapSet at h
  split at h
  · obtain ⟨p, hp, hq⟩ := List.mem_map.mp h
    by_cases h2 : p.1 = k
    · simp [h2] at hq; exact Or.inl hq.symm
    · simp [h2] at hq; exact Or.inr ⟨hq ▸ hp, hq ▸ h2⟩
  · rcases List.mem_append.mp h with h2 | h2
    · next hnone =>
        refine Or.inr ⟨h2, ?_⟩
        cases h3 : mapGet m k with
        | none => exact mapGet_none_keys h3 q h2
        | some w => rw [h3] at hnone; simp at hnone
    · simp at h2; exact Or.inl h2

theorem mem_mapDelete {m : List (K × V)} {k : K} {q : K × V}
    (h : q ∈ mapDelete m k) : q ∈ m :=
  List.mem_of_mem_filter h

theorem mapGet_mem {m : List (K × V)} {k : K} {v : V}
    (h : mapGet m k = some v) : (k, v) ∈ m := by
  induction m with
  | nil => simp [mapGet] at h
  | cons p rest ih =>
      obtain ⟨k', w⟩ := p
      by_cases h2 : k' = k
      · simp [mapGet, h2] at h
        simp [h2, h]
      · simp [mapGet, h2] at h
        exact List.mem_cons_of_mem _ (ih h)

end MapLemmas

section IdMonotone

theorem sentIds_append (l l' : List Ev) :
    sentIds (l ++ l') = sentIds l ++ sentIds l' :=
  List.filterMap_append l l' _

theorem sentIds_onClosed (s : CDPSession) : sentIds s.onClosed.2 = [] := by
  simp [CDPSession.onClosed, sentIds, List.filterMap_map, Function.comp_def]

theorem sessOnMessage_noSend {s : CDPSession} {e : Envelope}
    {r : CDPSession × List Ev} (h : s.onMessage e = some r) :
    sentIds r.2 = [] := by
  unfold CDPSession.onMessage at h
  dsimp only at h
  split at h
  · injection h with h
    subst h
    dsimp only
    split <;> rfl
  · split at h
    · exact absurd h (by simp)
    · injection h with h
      subst h
      rfl

theorem handleReserved_noSend (c : Connection) (e : Envelope) :
    (c.handleReserved e).1.lastId = c.lastId ∧
      sentIds (c.handleReserved e).2.1 = [] := by
  unfold Connection.handleReserved
  split
  · split
    · exact ⟨rfl, rfl⟩
    · split
      · exact ⟨rfl, rfl⟩
      · refine ⟨rfl, ?_⟩
        dsimp only
        split <;> rfl
  · split
    · split
      · exact ⟨rfl, rfl⟩
      · split
        · exact ⟨rfl, rfl⟩
        · next session heq =>
            refine ⟨rfl, ?_⟩
            dsimp only
            rw [sentIds_append, sentIds_onClosed]
            split <;> rfl
    · exact ⟨rfl, rfl⟩

theorem routeTail_noSend (c : Connection) (e : Envelope) :
    (c.routeTail e).1.lastId = c.lastId ∧
      sentIds (c.routeTail e).2.1 = [] := by
  unfold Connection.routeTail
  split
  · split
    · split
      · next s' evs heq => exact ⟨rfl, sessOnMessage_noSend heq⟩
      · exact ⟨rfl, rfl⟩
    · exact ⟨rfl, rfl⟩
  · split
    · split
      · refine ⟨rfl, ?_⟩
        dsimp only
        split <;> rfl
      · exact ⟨rfl, rfl⟩
    · exact ⟨rfl, rfl⟩

theorem onMessage_noSend (c : Connection) (e : Envelope) :
    (c.onMessage e).1.lastId = c.lastId ∧
      sentIds (c.onMessage e).2.1 = [] := by
  unfold Connection.onMessage
  obtain ⟨h1, h2⟩ := handleReserved_noSend c e
  obtain ⟨h3, h4⟩ := routeTail_noSend (c.handleReserved e).1 e
  dsimp only
  split
  · rw [sentIds_append]
    exact ⟨h1 ▸ h3, by rw [h2, h4]; rfl⟩
  · exact ⟨h1, h2⟩

theorem onClose_noSend (c : Connection) :
    (c.onClose).1.lastId = c.lastId ∧ sentIds (c.onClose).2 = [] := by
  unfold Connection.onClose
  split
  · exact ⟨rfl, rfl⟩
  · refine ⟨rfl, ?_⟩
    dsimp only
    rw [sentIds_append, sentIds_append]
    have h2 : sentIds (c.sessions.map fun q => q.2.onClosed.2).flatten = [] := by
      induction c.sessions with
      | nil => rfl
      | cons q rest ih =>
          rw [List.map_cons, List.flatten_cons, sentIds_append,
            sentIds_onClosed, ih]
          rfl
    rw [h2]
    have h1 : sentIds (c.callbacks.map fun p =>
        Ev.settleErr .conn p.1 (targetClosedMsg p.2.method) none) = [] := by
      simp [sentIds, List.filterMap_map, Function.comp_def]
    rw [h1]
    rfl

theorem runStep_ids (c : Connection) (st : Step) :
    ((runStep c st).1.lastId = c.lastId ∧ sentIds (runStep c st).2 = []) ∨
    ((runStep c st).1.lastId = c.lastId + 1 ∧
      sentIds (runStep c st).2 = [c.lastId + 1]) := by
  cases st with
  | deliver e =>
      simp only [runStep]
      split
      · exact Or.inl ⟨rfl, rfl⟩
      · exact Or.inl (onMessage_noSend c e)
  | close => exact Or.inl (onClose_noSend c)
  | connSend m p => exact Or.inr ⟨rfl, rfl⟩
  | sessSend sid m p =>
      simp only [runStep]
      split
      · next s heq =>
          by_cases hcon : s.connection = false
          · left
            simp [CDPSession.send, hcon, sentIds]
          · right
            simp [CDPSession.send, Connection.rawSend, hcon, sentIds]
      · exact Or.inl ⟨rfl, rfl⟩

theorem run_ids (steps : List Step) (c : Connection) :
    ∃ k, (run c steps).1.lastId = c.lastId + k ∧
      sentIds (run c steps).2 = List.range' (c.lastId + 1) k := by
  induction steps generalizing c with
  | nil => exact ⟨0, rfl, rfl⟩
  | cons st rest ih =>
      obtain ⟨k, hk1, hk2⟩ := ih (runStep c st).1
      rcases runStep_ids c st with ⟨h1, h2⟩ | ⟨h1, h2⟩
      · refine ⟨k, ?_, ?_⟩
        · show (run (runStep c st).1 rest).1.lastId = _
          rw [hk1, h1]
        · show sentIds ((runStep c st).2 ++ (run (runStep c st).1 rest).2) = _
          rw [sentIds_append, h2, hk2, h1]
          rfl
      · refine ⟨k + 1, ?_, ?_⟩
        · show (run (runStep c st).1 rest).1.lastId = _
          rw [hk1, h1]
          omega
        · show sentIds ((runStep c st).2 ++ (run (runStep c st).1 rest).2) = _
          rw [sentIds_append, h2, hk2, h1]
          have := List.range'_append (c.lastId + 1) 1 k 1
          simp only [List.range'_one, Nat.mul_one] at this
          rw [show c.lastId + 1 + 1 = c.lastId + 1 + 1 * 1 from by omega] at this
          simpa [Nat.add_comm 1 k] using this

end IdMonotone

/-- C1: for every sequence of operations issued through one Connection
and any of its Sessions, each send obtains its id from the Connection's
single `lastId` counter via `_rawSend`, so the ids written to the
transport are pairwise distinct and strictly increasing in issue order,
each one larger than the starting counter value, and the first id handed
out by a fresh Connection (counter 0) is 1. -/
theorem claim_C1 (c : Connection) (steps : List Step) :
    List.Pairwise (· < ·) (sentIds (run c steps).2) ∧
    (∀ i ∈ sentIds (run c steps).2, c.lastId < i) ∧
    (c.lastId = 0 → sentIds (run c steps).2 ≠ [] →
      (sentIds (run c steps).2).head? = some 1) := by
  obtain ⟨k, _, h2⟩ := run_ids steps c
  rw [h2]
  refine ⟨List.pairwise_lt_range' _ _, ?_, ?_⟩
  · intro i hi
    have := List.mem_range'_1.mp hi
    omega
  · intro h0 hne
    rw [h0] at hne ⊢
    cases k with
    | zero => exact absurd rfl hne
    | succ n => rw [List.range'_succ]; rfl

/-- Witness for C1: a fresh Connection issuing two sends hands out the
strictly increasing ids 1, 2. -/
theorem claim_C1_witness :
    List.Pairwise (· < ·)
      (sentIds (run ⟨"ws://test", 0, [], false, []⟩
        [.connSend "Page.enable" none, .connSend "Runtime.enable" none]).2) ∧
    (sentIds (run ⟨"ws://test", 0, [], false, []⟩
        [.connSend "Page.enable" none, .connSend "Runtime.enable" none]).2).head?
      = some 1 := by
  have h := claim_C1 ⟨"ws://test", 0, [], false, []⟩
    [.connSend "Page.enable" none, .connSend "Runtime.enable" none]
  exact ⟨h.1, h.2.2 rfl (by decide)⟩

theorem strContains_intro (a sub b : String) : StrContains (a ++ sub ++ b) sub :=
  ⟨a, b, rfl⟩

theorem sessionClosedMsg_split (m t : String) :
    sessionClosedMsg m t =
      ("Protocol error (" ++ m ++ "): ") ++ "Session closed" ++
        (". Most likely the " ++ t ++ " has been closed.") := by
  simp only [sessionClosedMsg, String.append_assoc]
  rw [show ("): Session closed. Most likely the " : String) =
    "): " ++ ("Session closed" ++ ". Most likely the ") from by decide]
  simp only [String.append_assoc]

theorem targetClosedMsg_split (m : String) :
    targetClosedMsg m =
      ("Protocol error (" ++ m ++ "): ") ++ "Target closed" ++ "." := by
  simp only [targetClosedMsg, String.append_assoc]
  rw [show ("): Target closed." : String) =
    "): " ++ ("Target closed" ++ ".") from by decide]

theorem targetClosedMsg_method (m : String) : StrContains (targetClosedMsg m) m := by
  refine ⟨"Protocol error (", "): Target closed.", ?_⟩
  simp only [targetClosedMsg, String.append_assoc]

theorem targetClosedMsg_text (m : String) :
    StrContains (targetClosedMsg m) "Target closed" :=
  targetClosedMsg_split m ▸ strContains_intro _ _ _

/-- C4: Session.send on a detached session (connection reference absent)
returns an immediately rejected result whose message contains the method
name and says the session is closed; no transport write occurs, neither
`_rawSend` nor any state change happens: the connection (id counter
included) and the session's pending-call table are returned unchanged. -/
theorem claim_C4 (s : CDPSession) (c : Connection) (method : String)
    (params : Option Params) (h : s.connection = false) :
    s.send c method params =
      (s, c, [], .rejected (sessionClosedMsg method s.targetType)) ∧
    StrContains (sessionClosedMsg method s.targetType) method ∧
    StrContains (sessionClosedMsg method s.targetType) "Session closed" := by
  refine ⟨by simp [CDPSession.send, h], ?_, ?_⟩
  · refine ⟨"Protocol error (",
      "): Session closed. Most likely the " ++ s.targetType ++
        " has been closed.", ?_⟩
    simp only [sessionClosedMsg, String.append_assoc]
  · exact sessionClosedMsg_split method s.targetType ▸ strContains_intro _ _ _

/-- Witness for C4: a detached page session rejects a `DOM.enable` send
with the session-closed message, leaving session and connection untouched. -/
theorem claim_C4_witness :
    CDPSession.send ⟨some "S1", "page", [(7, ⟨"Old.call"⟩)], false⟩
        ⟨"ws://test", 3, [], false, []⟩ "DOM.enable" none =
      (⟨some "S1", "page", [(7, ⟨"Old.call"⟩)], false⟩,
        ⟨"ws://test", 3, [], false, []⟩, [],
        .rejected (sessionClosedMsg "DOM.enable" "page")) ∧
    StrContains (sessionClosedMsg "DOM.enable" "page") "DOM.enable" := by
  have h := claim_C4 ⟨some "S1", "page", [(7, ⟨"Old.call"⟩)], false⟩
    ⟨"ws://test", 3, [], false, []⟩ "DOM.enable" none rfl
  exact ⟨h.1, h.2.1⟩

/-- Counterexample to C5 as stated: a send issued against a Connection
whose closed flag is true is not rejected synchronously; it still
executes `_rawSend`, which writes the serialized message to the
transport. -/
theorem claim_C5_counterexample :
    (⟨"ws://test", 5, [], true, []⟩ : Connection).closed = true ∧
    (Connection.send ⟨"ws://test", 5, [], true, []⟩ "Page.enable" none).2 =
      [Ev.transportSend
        { sessionId := none, method := "Page.enable",
          params := none, id := 6 }] := ⟨rfl, rfl⟩

/-- C5 amended: Connection.send does not consult the closed flag: a send
issued against an already-closed Connection still executes `_rawSend`,
which assigns the next id and invokes the transport's send (no
synchronous rejection occurs); only a detached Session's send short-cuts
before the transport. -/
theorem claim_C5_amended (c : Connection) (method : String)
    (params : Option Params) (h : c.closed = true) :
    (c.send method params).1.lastId = c.lastId + 1 ∧
    (c.send method params).2 =
      [Ev.transportSend
        { sessionId := none, method := method,
          params := params, id := c.lastId + 1 }] ∧
    (c.send method params).1.closed = true := ⟨rfl, rfl, h⟩

/-- Witness for C5 (amended): the closed connection of the
counterexample input indeed bumps the counter and writes to the transport. -/
theorem claim_C5_witness :
    (Connection.send ⟨"ws://test", 5, [], true, []⟩ "Page.enable" none).1.lastId = 6 ∧
    (Connection.send ⟨"ws://test", 5, [], true, []⟩ "Page.enable" none).1.closed = true := by
  have h := claim_C5_amended ⟨"ws://test", 5, [], true, []⟩ "Page.enable" none rfl
  exact ⟨h.1, h.2.2⟩

/-- C8: createSession issues the attach command over the shared counter,
and its continuation, once the command's result carrying the new session
id arrives, returns exactly the Session registered in the session map
under that id, or fails with the creation error when none is registered. -/
theorem claim_C8 :
    (∀ (c : Connection) (ti : TargetInfo),
      (c.createSessionIssue ti).2 =
        [Ev.transportSend
          { sessionId := none,
            method := "Target.attachToTarget",
            params := some { targetId := some ti.targetId, flatten := some true },
            id := c.lastId + 1 }]) ∧
    (∀ (c : Connection) (sid : Option String) (s : CDPSession),
      mapGet c.sessions sid = some s → c.createSessionResume sid = .ok s) ∧
    (∀ (c : Connection) (sid : Option String),
      mapGet c.sessions sid = none →
        c.createSessionResume sid = .error "CDPSession creation failed.") := by
  refine ⟨fun c ti => rfl, fun c sid s h => ?_, fun c sid h => ?_⟩
  · simp [Connection.createSessionResume, h]
  · simp [Connection.createSessionResume, h]

/-- Witness for C8: with session "S1" registered the continuation returns
it; with an empty session map it fails with the creation error. -/
theorem claim_C8_witness :
    Connection.createSessionResume
        ⟨"ws://test", 1, [(some "S1", ⟨some "S1", "page", [], true⟩)], false, []⟩
        (some "S1") = .ok ⟨some "S1", "page", [], true⟩ ∧
    Connection.createSessionResume ⟨"ws://test", 1, [], false, []⟩
        (some "S1") = .error "CDPSession creation failed." := by
  have h := claim_C8
  exact ⟨h.2.1 _ _ _ (by decide), h.2.2 _ _ rfl⟩

theorem strContains_suffix (a sub : String) : StrContains (a ++ sub) sub :=
  ⟨a, "", by rw [String.append_assoc, String.append_empty]⟩

theorem createProtocolErrorMsg_method (m : String) (err : ErrObj) :
    StrContains (createProtocolErrorMsg m err) m := by
  cases h : err.data with
  | none =>
      refine ⟨"Protocol error (", "): " ++ err.message, ?_⟩
      simp only [createProtocolErrorMsg, h, String.append_assoc]
  | some d =>
      refine ⟨"Protocol error (", "): " ++ err.message ++ " " ++ d, ?_⟩
      simp only [createProtocolErrorMsg, h, String.append_assoc]

theorem createProtocolErrorMsg_message (m : String) (err : ErrObj) :
    StrContains (createProtocolErrorMsg m err) err.message := by
  cases h : err.data with
  | none =>
      refine ⟨"Protocol error (" ++ m ++ "): ", "", ?_⟩
      simp only [createProtocolErrorMsg, h, String.append_assoc,
        String.append_empty]
  | some d =>
      refine ⟨"Protocol error (" ++ m ++ "): ", " " ++ d, ?_⟩
      simp only [createProtocolErrorMsg, h, String.append_assoc]

theorem createProtocolErrorMsg_data (m : String) (err : ErrObj) (d : String)
    (h : err.data = some d) :
    StrContains (createProtocolErrorMsg m err) d := by
  refine ⟨"Protocol error (" ++ m ++ "): " ++ err.message ++ " ", "", ?_⟩
  simp only [createProtocolErrorMsg, h, String.append_assoc,
    String.append_empty]

theorem handleReserved_other {c : Connection} {e : Envelope}
    (hatt : e.method ≠ some "Target.attachedToTarget")
    (hdet : e.method ≠ some "Target.detachedFromTarget") :
    c.handleReserved e = (c, [], true) := by
  unfold Connection.handleReserved
  rw [if_neg hatt, if_neg hdet]

theorem onMessage_other {c : Connection} {e : Envelope}
    (hatt : e.method ≠ some "Target.attachedToTarget")
    (hdet : e.method ≠ some "Target.detachedFromTarget") :
    c.onMessage e = c.routeTail e := by
  unfold Connection.onMessage
  rw [handleReserved_other hatt hdet]
  simp

theorem routeTail_matched {c : Connection} {e : Envelope}
    {cb : ConnectionCallback} (hsid : e.sessionIdTruthy = false)
    (hcb : mapGet c.callbacks e.idVal = some cb) (hid : e.idTruthy = true) :
    c.routeTail e =
      ({ c with callbacks := mapDelete c.callbacks e.idVal },
        [match e.error with
         | some err =>
             Ev.settleErr .conn e.idVal
               (createProtocolErrorMsg cb.method err) (some err.message)
         | none => Ev.settleOk .conn e.idVal e.result], true) := by
  simp [Connection.routeTail, hsid, hid, hcb]

theorem routeTail_unmatched {c : Connection} {e : Envelope}
    (hsid : e.sessionIdTruthy = false)
    (hcb : mapGet c.callbacks e.idVal = none) (hid : e.idTruthy = true) :
    c.routeTail e = (c, [], true) := by
  simp [Connection.routeTail, hsid, hid, hcb]

/-- C2 amended: when an inbound envelope carries a (truthy) `id`, no
(truthy) `sessionId`, its method is neither of the two reserved
structural notifications, and the Connection's pending-call table holds
a matching entry, the router removes exactly that entry and settles it
exactly once — with the envelope's `result` on success, or with a
rejection whose text contains the originating method name, the
server-provided `error.message`, and `error.data` when present; no other
pending call in any table is affected.  (The reserved-method proviso is
forced: steps 1-2 of the router run first on such envelopes and can
settle other calls or throw.) -/
theorem claim_C2_amended (c : Connection) (e : Envelope)
    (cb : ConnectionCallback)
    (hid : e.idTruthy = true) (hsid : e.sessionIdTruthy = false)
    (hatt : e.method ≠ some "Target.attachedToTarget")
    (hdet : e.method ≠ some "Target.detachedFromTarget")
    (hcb : mapGet c.callbacks e.idVal = some cb) :
    (c.onMessage e).2.2 = true ∧
    (c.onMessage e).1.sessions = c.sessions ∧
    (c.onMessage e).1.lastId = c.lastId ∧
    (c.onMessage e).1.closed = c.closed ∧
    mapGet (c.onMessage e).1.callbacks e.idVal = none ∧
    (∀ j, j ≠ e.idVal →
      mapGet (c.onMessage e).1.callbacks j = mapGet c.callbacks j) ∧
    (e.error = none →
      (c.onMessage e).2.1 = [Ev.settleOk .conn e.idVal e.result]) ∧
    (∀ err, e.error = some err →
      (c.onMessage e).2.1 =
        [Ev.settleErr .conn e.idVal
          (createProtocolErrorMsg cb.method err) (some err.message)] ∧
      StrContains (createProtocolErrorMsg cb.method err) cb.method ∧
      StrContains (createProtocolErrorMsg cb.method err) err.message ∧
      (∀ d, err.data = some d →
        StrContains (createProtocolErrorMsg cb.method err) d)) := by
  rw [onMessage_other hatt hdet, routeTail_matched hsid hcb hid]
  refine ⟨rfl, rfl, rfl, rfl, mapGet_delete_self _ _,
    fun j hj => mapGet_delete_ne _ _ _ hj, fun herr => by simp [herr],
    fun err herr => ⟨by simp [herr], createProtocolErrorMsg_method _ _,
      createProtocolErrorMsg_message _ _,
      fun d hd => createProtocolErrorMsg_data _ _ _ hd⟩⟩

/-- Counterexample to C2 as stated: an envelope that carries an id with
a matching pending call and no sessionId, but whose method is the
reserved detach notification, settles another pending call as well (the
named session's call 2 is force-rejected by `_onClosed` before the id
branch runs), violating the claim's "no other pending call in any table
is affected". -/
theorem claim_C2_counterexample :
    let c : Connection :=
      ⟨"ws://test", 2,
        [(some "S", ⟨some "S", "page", [(2, ⟨"Sub.cmd"⟩)], true⟩)],
        false, [(1, ⟨"Foo.bar"⟩)]⟩
    let e : Envelope :=
      { id := some 1, method := some "Target.detachedFromTarget",
        params := some { sessionId := some "S" } }
    e.idTruthy = true ∧ e.sessionIdTruthy = false ∧
    mapGet c.callbacks e.idVal = some ⟨"Foo.bar"⟩ ∧
    mapGet c.sessions (some "S") ≠ none ∧
    ((c.onMessage e).2.1.any fun ev => ev.settlesId 2) = true := by
  decide

/-- Witness for C2 (amended): request id 9 for "Foo.bar", then inbound
error response with message "boom" and data: the call is rejected with
text containing "Foo.bar", "boom" and the data. -/
theorem claim_C2_witness :
    (Connection.onMessage ⟨"ws://test", 9, [], false, [(9, ⟨"Foo.bar"⟩)]⟩
        { id := some 9, error := some ⟨"boom", -1, some "extra"⟩ }).2.1 =
      [Ev.settleErr .conn 9
        (createProtocolErrorMsg "Foo.bar" ⟨"boom", -1, some "extra"⟩)
        (some "boom")] ∧
    StrContains
      (createProtocolErrorMsg "Foo.bar" ⟨"boom", -1, some "extra"⟩)
      "Foo.bar" ∧
    StrContains
      (createProtocolErrorMsg "Foo.bar" ⟨"boom", -1, some "extra"⟩)
      "boom" := by
  have h := claim_C2_amended ⟨"ws://test", 9, [], false, [(9, ⟨"Foo.bar"⟩)]⟩
    { id := some 9, error := some ⟨"boom", -1, some "extra"⟩ } ⟨"Foo.bar"⟩
    rfl rfl (by decide) (by decide) rfl
  obtain ⟨hev, hm, hmsg, -⟩ := h.2.2.2.2.2.2.2 ⟨"boom", -1, some "extra"⟩ rfl
  exact ⟨hev, hm, hmsg⟩

/-- C9 amended: when an inbound envelope carries a (truthy) `id`, no
(truthy) `sessionId`, its method is neither reserved structural
notification, and the pending-call table holds no entry for that id, the
router completes without error and without any effect: the state
(session map, pending tables, counter, flag) is returned unchanged and
no event is emitted.  (The reserved-method proviso is forced: an attach
or detach notification carrying an unmatched id still mutates the
session map or settles calls in step 1-2.) -/
theorem claim_C9_amended (c : Connection) (e : Envelope)
    (hid : e.idTruthy = true) (hsid : e.sessionIdTruthy = false)
    (hatt : e.method ≠ some "Target.attachedToTarget")
    (hdet : e.method ≠ some "Target.detachedFromTarget")
    (hcb : mapGet c.callbacks e.idVal = none) :
    c.onMessage e = (c, [], true) := by
  rw [onMessage_other hatt hdet]
  exact routeTail_unmatched hsid hcb hid

/-- Counterexample to C9 as stated: an envelope carrying an unmatched id
and no sessionId whose method is the reserved attach notification does
have effects — it registers a session and emits an attached event. -/
theorem claim_C9_counterexample :
    let c : Connection := ⟨"ws://test", 7, [], false, []⟩
    let e : Envelope :=
      { id := some 7, method := some "Target.attachedToTarget",
        params := some { sessionId := some "S1",
                         targetInfo := some ⟨"page", "T1"⟩ } }
    e.idTruthy = true ∧ e.sessionIdTruthy = false ∧
    mapGet c.callbacks e.idVal = none ∧
    (c.onMessage e).1 ≠ c ∧ (c.onMessage e).2.1 ≠ [] := by
  decide

/-- Witness for C9 (amended): an ordinary unmatched response envelope is
ignored: state unchanged, nothing emitted, no error. -/
theorem claim_C9_witness :
    Connection.onMessage ⟨"ws://test", 3, [], false, [(1, ⟨"Foo.bar"⟩)]⟩
        { id := some 2, result := some 0 } =
      (⟨"ws://test", 3, [], false, [(1, ⟨"Foo.bar"⟩)]⟩, [], true) :=
  claim_C9_amended ⟨"ws://test", 3, [], false, [(1, ⟨"Foo.bar"⟩)]⟩
    { id := some 2, result := some 0 } rfl rfl (by decide) (by decide)
    (by decide)

theorem onClosed_state (s : CDPSession) :
    s.onClosed.1.callbacks = [] ∧ s.onClosed.1.connection = false :=
  ⟨rfl, rfl⟩

theorem onClosed_mem_disconnected (s : CDPSession) :
    Ev.emitDisconnected (.sess s.sessionId) ∈ s.onClosed.2 := by
  simp [CDPSession.onClosed]

theorem onClosed_mem_settle (s : CDPSession) {p : Nat × ConnectionCallback}
    (hp : p ∈ s.callbacks) :
    Ev.settleErr (.sess s.sessionId) p.1 (targetClosedMsg p.2.method) none
      ∈ s.onClosed.2 := by
  simp only [CDPSession.onClosed, List.mem_append, List.mem_map]
  exact Or.inl ⟨p, hp, rfl⟩

/-- C3: Connection closure is idempotent (a second invocation, and any
invocation with the closed flag already set, is a no-op), and a single
invocation turns the closed flag on, rejects every pending call of the
Connection's table with a target-closed error containing that call's
method name, clears that table, runs the closure routine of every live
Session (rejecting and clearing that Session's own pending calls and
emitting its disconnected event), clears the session map, and emits a
disconnected notification — afterward the session map and every
pending-call table are empty. -/
theorem claim_C3 (c : Connection) (h : c.closed = false) :
    c.onClose.1.closed = true ∧
    c.onClose.1.callbacks = [] ∧
    c.onClose.1.sessions = [] ∧
    (∀ p ∈ c.callbacks,
      Ev.settleErr .conn p.1 (targetClosedMsg p.2.method) none ∈ c.onClose.2 ∧
      StrContains (targetClosedMsg p.2.method) p.2.method ∧
      StrContains (targetClosedMsg p.2.method) "Target closed") ∧
    (∀ q ∈ c.sessions,
      q.2.onClosed.1.callbacks = [] ∧
      q.2.onClosed.1.connection = false ∧
      Ev.emitDisconnected (.sess q.2.sessionId) ∈ c.onClose.2 ∧
      (∀ p ∈ q.2.callbacks,
        Ev.settleErr (.sess q.2.sessionId) p.1 (targetClosedMsg p.2.method)
          none ∈ c.onClose.2)) ∧
    Ev.emitDisconnected .conn ∈ c.onClose.2 ∧
    c.onClose.1.onClose = (c.onClose.1, []) ∧
    (∀ c2 : Connection, c2.closed = true → c2.onClose = (c2, [])) := by
  have hclose : c.onClose =
      ({ c with closed := true, callbacks := [], sessions := [] },
        (c.callbacks.map fun p =>
          Ev.settleErr .conn p.1 (targetClosedMsg p.2.method) none)
        ++ (c.sessions.map fun q => q.2.onClosed.2).flatten
        ++ [Ev.emitDisconnected .conn]) := by
    unfold Connection.onClose
    rw [if_neg (by simp [h])]
  have hsub : ∀ q ∈ c.sessions, ∀ x ∈ q.2.onClosed.2, x ∈ c.onClose.2 := by
    intro q hq x hx
    rw [hclose]
    simp only [List.append_assoc, List.mem_append]
    exact Or.inr (Or.inl (List.mem_flatten.mpr
      ⟨q.2.onClosed.2, List.mem_map_of_mem _ hq, hx⟩))
  refine ⟨by rw [hclose], by rw [hclose], by rw [hclose], ?_, ?_, ?_, ?_, ?_⟩
  · intro p hp
    refine ⟨?_, targetClosedMsg_method p.2.method,
      targetClosedMsg_text p.2.method⟩
    rw [hclose]
    simp only [List.append_assoc, List.mem_append, List.mem_map]
    exact Or.inl ⟨p, hp, rfl⟩
  · intro q hq
    exact ⟨rfl, rfl, hsub q hq _ (onClosed_mem_disconnected q.2),
      fun p hp => hsub q hq _ (onClosed_mem_settle q.2 hp)⟩
  · rw [hclose]
    simp
  · rw [hclose]
    unfold Connection.onClose
    rw [if_pos rfl]
  · intro c2 h2
    unfold Connection.onClose
    rw [if_pos h2]

/-- Witness for C3: closing a connection with one own pending call and
one session holding a pending call rejects both, clears both tables,
empties the session map and emits the disconnected notification. -/
theorem claim_C3_witness :
    (Connection.onClose ⟨"ws://test", 2,
        [(some "S", ⟨some "S", "page", [(2, ⟨"Bar.b"⟩)], true⟩)],
        false, [(1, ⟨"Foo.a"⟩)]⟩).1.sessions = [] ∧
    (Connection.onClose ⟨"ws://test", 2,
        [(some "S", ⟨some "S", "page", [(2, ⟨"Bar.b"⟩)], true⟩)],
        false, [(1, ⟨"Foo.a"⟩)]⟩).1.callbacks = [] ∧
    Ev.settleErr .conn 1 (targetClosedMsg "Foo.a") none ∈
      (Connection.onClose ⟨"ws://test", 2,
        [(some "S", ⟨some "S", "page", [(2, ⟨"Bar.b"⟩)], true⟩)],
        false, [(1, ⟨"Foo.a"⟩)]⟩).2 ∧
    Ev.settleErr (.sess (some "S")) 2 (targetClosedMsg "Bar.b") none ∈
      (Connection.onClose ⟨"ws://test", 2,
        [(some "S", ⟨some "S", "page", [(2, ⟨"Bar.b"⟩)], true⟩)],
        false, [(1, ⟨"Foo.a"⟩)]⟩).2 ∧
    Ev.emitDisconnected .conn ∈
      (Connection.onClose ⟨"ws://test", 2,
        [(some "S", ⟨some "S", "page", [(2, ⟨"Bar.b"⟩)], true⟩)],
        false, [(1, ⟨"Foo.a"⟩)]⟩).2 := by
  have h := claim_C3 ⟨"ws://test", 2,
    [(some "S", ⟨some "S", "page", [(2, ⟨"Bar.b"⟩)], true⟩)],
    false, [(1, ⟨"Foo.a"⟩)]⟩ rfl
  refine ⟨h.2.2.1, h.2.1, (h.2.2.2.1 (1, ⟨"Foo.a"⟩) (by decide)).1,
    (h.2.2.2.2.1 (some "S", ⟨some "S", "page", [(2, ⟨"Bar.b"⟩)], true⟩)
      (by decide)).2.2.2 (2, ⟨"Bar.b"⟩) (by decide), h.2.2.2.2.2.1⟩

theorem mapGet_set_same {K V : Type} [DecidableEq K] (m : List (K × V))
    (k : K) (v : V) (h : mapGet m k = some v) (k'' : K) :
    mapGet (mapSet m k v) k'' = mapGet m k'' := by
  by_cases hk : k'' = k
  · subst hk
    rw [mapGet_set_self, h]
  · exact mapGet_set_ne _ _ _ _ hk

theorem sessOnMessage_noId (s : CDPSession) (e : Envelope)
    (hid : e.idTruthy = false) :
    s.onMessage e =
      some (s, [Ev.emitEvent (.sess s.sessionId) e.method e.params]) := by
  simp [CDPSession.onMessage, hid]

theorem onMessage_decomp (c : Connection) (e : Envelope)
    (h : (c.handleReserved e).2.2 = true) :
    c.onMessage e =
      (((c.handleReserved e).1.routeTail e).1,
        (c.handleReserved e).2.1 ++ ((c.handleReserved e).1.routeTail e).2.1,
        ((c.handleReserved e).1.routeTail e).2.2) := by
  unfold Connection.onMessage
  rw [if_pos h]

theorem routeTail_noId (c : Connection) (e : Envelope)
    (hid : e.idTruthy = false) :
    (∀ k, mapGet (c.routeTail e).1.sessions k = mapGet c.sessions k) ∧
    (c.routeTail e).2.2 = true ∧
    (c.routeTail e).1.callbacks = c.callbacks ∧
    (∀ ev ∈ (c.routeTail e).2.1,
      ev.isSettle = false ∧ ev.isDisconnected = false) := by
  unfold Connection.routeTail
  by_cases hs : e.sessionIdTruthy = true
  · rw [if_pos hs]
    cases heq : mapGet c.sessions e.sessionId with
    | none => exact ⟨fun k => rfl, rfl, rfl, by simp⟩
    | some session =>
        dsimp only
        rw [sessOnMessage_noId session e hid]
        dsimp only
        exact ⟨fun k => mapGet_set_same _ _ _ heq k, rfl, rfl,
          by simp [Ev.isSettle, Ev.isDisconnected]⟩
  · rw [if_neg hs, if_neg (by simp [hid])]
    exact ⟨fun k => rfl, rfl, rfl, by simp [Ev.isSettle, Ev.isDisconnected]⟩

theorem handleReserved_attach (c : Connection) {e : Envelope} {p : Params}
    {ti : TargetInfo}
    (hm : e.method = some "Target.attachedToTarget")
    (hp : e.params = some p) (hti : p.targetInfo = some ti) :
    c.handleReserved e =
      ({ c with
          sessions := mapSet c.sessions p.sessionId ⟨p.sessionId, ti.type, [], true⟩ },
        Ev.emitAttached .conn p.sessionId ::
          (match mapGet (mapSet c.sessions p.sessionId ⟨p.sessionId, ti.type, [], true⟩) e.sessionId with
           | some parent =>
               [Ev.emitAttached (.sess parent.sessionId) p.sessionId]
           | none => []), true) := by
  simp [Connection.handleReserved, hm, hp, hti]

theorem handleReserved_detach (c : Connection) {e : Envelope} {p : Params}
    {sess : CDPSession}
    (hm : e.method = some "Target.detachedFromTarget")
    (hp : e.params = some p)
    (hfound : mapGet c.sessions p.sessionId = some sess) :
    c.handleReserved e =
      ({ c with sessions := mapDelete c.sessions p.sessionId },
        sess.onClosed.2 ++ Ev.emitDetached .conn sess.sessionId ::
          (match mapGet (mapDelete c.sessions p.sessionId) e.sessionId with
           | some parent =>
               [Ev.emitDetached (.sess parent.sessionId) sess.sessionId]
           | none => []), true) := by
  simp [Connection.handleReserved, hm, hp, hfound]

/-- C6: processing an attach notification carrying new session id S
registers under S a fresh Session bound to this Connection (so
`session(S)` returns it), emits the attached notification on the
Connection and, when the envelope's outer sessionId names a registered
parent, on that parent Session; and processing a detach notification
naming a registered session id runs that Session's closure routine (its
pending calls are rejected and its disconnected event is emitted),
removes it from the map and emits the detached notification, after which
`session(S)` returns absent. -/
theorem claim_C6 :
    (∀ (c : Connection) (e : Envelope) (p : Params) (S : String)
        (ti : TargetInfo),
      e.method = some "Target.attachedToTarget" → e.params = some p →
      p.sessionId = some S → p.targetInfo = some ti → e.id = none →
      (c.onMessage e).2.2 = true ∧
      (c.onMessage e).1.session S = some ⟨some S, ti.type, [], true⟩ ∧
      Ev.emitAttached .conn (some S) ∈ (c.onMessage e).2.1 ∧
      (∀ parent,
        mapGet (mapSet c.sessions (some S) ⟨some S, ti.type, [], true⟩)
          e.sessionId = some parent →
        Ev.emitAttached (.sess parent.sessionId) (some S)
          ∈ (c.onMessage e).2.1)) ∧
    (∀ (c : Connection) (e : Envelope) (p : Params) (S : String)
        (sess : CDPSession),
      e.method = some "Target.detachedFromTarget" → e.params = some p →
      p.sessionId = some S → mapGet c.sessions (some S) = some sess →
      e.id = none →
      (c.onMessage e).2.2 = true ∧
      (c.onMessage e).1.session S = none ∧
      Ev.emitDisconnected (.sess sess.sessionId) ∈ (c.onMessage e).2.1 ∧
      (∀ q ∈ sess.callbacks,
        Ev.settleErr (.sess sess.sessionId) q.1 (targetClosedMsg q.2.method)
          none ∈ (c.onMessage e).2.1) ∧
      Ev.emitDetached .conn sess.sessionId ∈ (c.onMessage e).2.1) := by
  constructor
  · intro c e p S ti hm hp hps hti hid0
    have hid : e.idTruthy = false := by simp [Envelope.idTruthy, hid0]
    have hhr := handleReserved_attach c hm hp hti
    rw [hps] at hhr
    have hok : (c.handleReserved e).2.2 = true := by rw [hhr]
    rw [onMessage_decomp c e hok]
    obtain ⟨hsess, hok2, -, -⟩ :=
      routeTail_noId (c.handleReserved e).1 e hid
    refine ⟨hok2, ?_, ?_, ?_⟩
    · show mapGet _ (some S) = _
      rw [hsess, hhr]
      exact mapGet_set_self _ _ _
    · rw [hhr]
      simp
    · intro parent hparent
      rw [hhr]
      simp only [List.mem_append, List.mem_cons]
      rw [hparent]
      simp
  · intro c e p S sess hm hp hps hfound hid0
    have hid : e.idTruthy = false := by simp [Envelope.idTruthy, hid0]
    have hhr := handleReserved_detach c hm hp (hps ▸ hfound)
    rw [hps] at hhr
    have hok : (c.handleReserved e).2.2 = true := by rw [hhr]
    rw [onMessage_decomp c e hok]
    obtain ⟨hsess, hok2, -, -⟩ :=
      routeTail_noId (c.handleReserved e).1 e hid
    refine ⟨hok2, ?_, ?_, ?_, ?_⟩
    · show mapGet _ (some S) = _
      rw [hsess, hhr]
      exact mapGet_delete_self _ _
    · rw [hhr]
      simp only [List.mem_append]
      exact Or.inl (Or.inl (onClosed_mem_disconnected sess))
    · intro q hq
      rw [hhr]
      simp only [List.mem_append]
      exact Or.inl (Or.inl (onClosed_mem_settle sess hq))
    · rw [hhr]
      simp

/-- Witness for C6: attaching "S1" (nested page target) to a fresh
connection makes `session "S1"` return the new live session with the
attached event emitted; detaching "S1" from the resulting state rejects
its pending call, emits its disconnected event and makes `session "S1"`
absent. -/
theorem claim_C6_witness :
    ((Connection.onMessage ⟨"ws://test", 0, [], false, []⟩
        { method := some "Target.attachedToTarget",
          params := some { sessionId := some "S1",
                           targetInfo := some ⟨"page", "T1"⟩ } }).1.session "S1"
      = some ⟨some "S1", "page", [], true⟩) ∧
    ((Connection.onMessage
        ⟨"ws://test", 4,
          [(some "S1", ⟨some "S1", "page", [(4, ⟨"Bar.b"⟩)], true⟩)],
          false, []⟩
        { method := some "Target.detachedFromTarget",
          params := some { sessionId := some "S1" } }).1.session "S1"
      = none) ∧
    Ev.emitDisconnected (.sess (some "S1")) ∈
      (Connection.onMessage
        ⟨"ws://test", 4,
          [(some "S1", ⟨some "S1", "page", [(4, ⟨"Bar.b"⟩)], true⟩)],
          false, []⟩
        { method := some "Target.detachedFromTarget",
          params := some { sessionId := some "S1" } }).2.1 := by
  have hA := (claim_C6.1 ⟨"ws://test", 0, [], false, []⟩
    { method := some "Target.attachedToTarget",
      params := some { sessionId := some "S1",
                       targetInfo := some ⟨"page", "T1"⟩ } }
    { sessionId := some "S1", targetInfo := some ⟨"page", "T1"⟩ }
    "S1" ⟨"page", "T1"⟩ rfl rfl rfl rfl rfl)
  have hB := (claim_C6.2
    ⟨"ws://test", 4,
      [(some "S1", ⟨some "S1", "page", [(4, ⟨"Bar.b"⟩)], true⟩)],
      false, []⟩
    { method := some "Target.detachedFromTarget",
      params := some { sessionId := some "S1" } }
    { sessionId := some "S1" } "S1"
    ⟨some "S1", "page", [(4, ⟨"Bar.b"⟩)], true⟩ rfl rfl rfl (by decide) rfl)
  exact ⟨hA.2.1, hB.2.1, hB.2.2.1⟩

theorem sessOnMessage_matched {s : CDPSession} {e : Envelope}
    {cb : ConnectionCallback}
    (hid : e.idTruthy = true) (hcb : mapGet s.callbacks e.idVal = some cb) :
    s.onMessage e =
      some ({ s with callbacks := mapDelete s.callbacks e.idVal },
        [match e.error with
         | some err =>
             Ev.settleErr (.sess s.sessionId) e.idVal
               (createProtocolErrorMsg cb.method err) (some err.message)
         | none => Ev.settleOk (.sess s.sessionId) e.idVal e.result]) := by
  simp [CDPSession.onMessage, hid, hcb]

theorem sessOnMessage_unmatched {s : CDPSession} {e : Envelope}
    (hid : e.idTruthy = true) (hcb : mapGet s.callbacks e.idVal = none) :
    s.onMessage e = none := by
  simp [CDPSession.onMessage, hid, hcb]

/-- Counterexample to C7 as stated: on an envelope whose id has no
matching entry, the Session router does not behave as the Connection
router does — the Session's `assert(!object.id)` fails (modelled as
`none`, a raised error), while the Connection completes without error
and without effect. -/
theorem claim_C7_counterexample :
    CDPSession.onMessage ⟨some "S", "page", [], true⟩ { id := some 5 }
      = none ∧
    Connection.onMessage ⟨"ws://test", 5, [], false, []⟩ { id := some 5 }
      = (⟨"ws://test", 5, [], false, []⟩, [], true) := by
  decide

/-- C7 amended: the Session's inbound router settles an envelope whose
id matches an entry of its table exactly as the Connection's router does
(the same entry removal and, up to the owner tag, the same settle event
built by the same protocol-error construction); but on an envelope whose
(truthy) id has no matching entry the Session's router fails an
assertion and raises, whereas the Connection's router treats an
unmatched id as a no-op. -/
theorem claim_C7_amended :
    (∀ (s : CDPSession) (e : Envelope) (cb : ConnectionCallback),
      e.idTruthy = true → mapGet s.callbacks e.idVal = some cb →
      s.onMessage e =
        some ({ s with callbacks := mapDelete s.callbacks e.idVal },
          [match e.error with
           | some err =>
               Ev.settleErr (.sess s.sessionId) e.idVal
                 (createProtocolErrorMsg cb.method err) (some err.message)
           | none => Ev.settleOk (.sess s.sessionId) e.idVal e.result])) ∧
    (∀ (s : CDPSession) (e : Envelope),
      e.idTruthy = true → mapGet s.callbacks e.idVal = none →
      s.onMessage e = none) ∧
    (∀ (c : Connection) (e : Envelope),
      e.idTruthy = true → e.sessionIdTruthy = false →
      e.method ≠ some "Target.attachedToTarget" →
      e.method ≠ some "Target.detachedFromTarget" →
      mapGet c.callbacks e.idVal = none →
      c.onMessage e = (c, [], true)) ∧
    (∀ (s : CDPSession) (c : Connection) (e : Envelope)
        (cb : ConnectionCallback),
      e.idTruthy = true → e.sessionIdTruthy = false →
      e.method ≠ some "Target.attachedToTarget" →
      e.method ≠ some "Target.detachedFromTarget" →
      mapGet s.callbacks e.idVal = some cb →
      mapGet c.callbacks e.idVal = some cb →
      (s.onMessage e).map (fun r => r.2.map (Ev.setOwner .conn)) =
        some (c.onMessage e).2.1) := by
  refine ⟨fun s e cb hid hcb => sessOnMessage_matched hid hcb,
    fun s e hid hcb => sessOnMessage_unmatched hid hcb,
    fun c e hid hsid hatt hdet hcb => ?_,
    fun s c e cb hid hsid hatt hdet hscb hccb => ?_⟩
  · rw [onMessage_other hatt hdet]
    exact routeTail_unmatched hsid hcb hid
  · rw [sessOnMessage_matched hid hscb,
      onMessage_other hatt hdet, routeTail_matched hsid hccb hid]
    cases e.error <;> rfl

/-- Witness for C7 (amended): a matched response settles the same way in
a Session and in the Connection (same id, same result, owner apart), and
an unmatched id makes the Session router raise. -/
theorem claim_C7_witness :
    CDPSession.onMessage ⟨some "S", "page", [(3, ⟨"Net.get"⟩)], true⟩
        { id := some 3, result := some 1 }
      = some (⟨some "S", "page", [], true⟩,
          [Ev.settleOk (.sess (some "S")) 3 (some 1)]) ∧
    (CDPSession.onMessage ⟨some "S", "page", [(3, ⟨"Net.get"⟩)], true⟩
        { id := some 3, result := some 1 }).map
          (fun r => r.2.map (Ev.setOwner .conn)) =
      some (Connection.onMessage ⟨"ws://test", 3, [], false,
        [(3, ⟨"Net.get"⟩)]⟩ { id := some 3, result := some 1 }).2.1 ∧
    CDPSession.onMessage ⟨some "S", "page", [(3, ⟨"Net.get"⟩)], true⟩
        { id := some 4 } = none := by
  have h := claim_C7_amended
  refine ⟨(h.1 ⟨some "S", "page", [(3, ⟨"Net.get"⟩)], true⟩
      { id := some 3, result := some 1 } ⟨"Net.get"⟩ rfl rfl).trans
      (by decide), ?_, h.2.1 ⟨some "S", "page", [(3, ⟨"Net.get"⟩)], true⟩
      { id := some 4 } rfl rfl⟩
  exact h.2.2.2 ⟨some "S", "page", [(3, ⟨"Net.get"⟩)], true⟩
    ⟨"ws://test", 3, [], false, [(3, ⟨"Net.get"⟩)]⟩
    { id := some 3, result := some 1 } ⟨"Net.get"⟩
    rfl rfl (by decide) (by decide) rfl rfl

theorem mem_idsOf {m : List (Nat × ConnectionCallback)} {b : Nat} :
    b ∈ idsOf m ↔ ∃ q ∈ m, q.1 = b := by
  simp [idsOf]

theorem idsOf_mapGet {m : List (Nat × ConnectionCallback)} {i : Nat}
    {cb : ConnectionCallback} (h : mapGet m i = some cb) : i ∈ idsOf m :=
  mem_idsOf.mpr ⟨(i, cb), mapGet_mem h, rfl⟩

theorem idsOf_mapDelete {m : List (Nat × ConnectionCallback)} {k b : Nat}
    (h : b ∉ idsOf m) : b ∉ idsOf (mapDelete m k) := by
  intro hb
  obtain ⟨q, hq, hqb⟩ := mem_idsOf.mp hb
  exact h (mem_idsOf.mpr ⟨q, mem_mapDelete hq, hqb⟩)

theorem onClosed_settles {s : CDPSession} {b : Nat}
    (hb : b ∉ idsOf s.callbacks) :
    ∀ ev ∈ s.onClosed.2, ev.settlesId b = false := by
  intro ev hev
  simp only [CDPSession.onClosed, List.mem_append, List.mem_map,
    List.mem_singleton] at hev
  rcases hev with ⟨p, hp, rfl⟩ | rfl
  · simp only [Ev.settlesId, beq_eq_false_iff_ne]
    exact fun hpb => hb (mem_idsOf.mpr ⟨p, hp, hpb⟩)
  · rfl

theorem sessOnMessage_banned {s : CDPSession} {e : Envelope} {b : Nat}
    (hb : b ∉ idsOf s.callbacks) {r : CDPSession × List Ev}
    (h : s.onMessage e = some r) :
    b ∉ idsOf r.1.callbacks ∧ ∀ ev ∈ r.2, ev.settlesId b = false := by
  by_cases hid : e.idTruthy = true
  · cases hcb : mapGet s.callbacks e.idVal with
    | none =>
        rw [sessOnMessage_unmatched hid hcb] at h
        exact absurd h (by simp)
    | some cb =>
        rw [sessOnMessage_matched hid hcb] at h
        injection h with h
        subst h
        refine ⟨idsOf_mapDelete hb, ?_⟩
        intro ev hev
        simp only [List.mem_singleton] at hev
        subst hev
        have hne : e.idVal ≠ b := fun hh => hb (hh ▸ idsOf_mapGet hcb)
        cases e.error <;>
          simp only [Ev.settlesId, beq_eq_false_iff_ne] <;> exact hne
  · rw [sessOnMessage_noId s e (by simpa using hid)] at h
    injection h with h
    subst h
    exact ⟨hb, by simp [Ev.settlesId]⟩

theorem handleReserved_banned {b : Nat} (c : Connection) (e : Envelope)
    (hb : BannedIn b c) :
    BannedIn b (c.handleReserved e).1 ∧
    ∀ ev ∈ (c.handleReserved e).2.1, ev.settlesId b = false := by
  obtain ⟨hb1, hb2, hb3⟩ := hb
  unfold Connection.handleReserved
  split
  · split
    · exact ⟨⟨hb1, hb2, hb3⟩, by simp⟩
    · split
      · exact ⟨⟨hb1, hb2, hb3⟩, by simp⟩
      · dsimp only
        constructor
        · refine ⟨hb1, hb2, ?_⟩
          intro q hq
          rcases mem_mapSet hq with rfl | ⟨hq2, -⟩
          · simp [idsOf]
          · exact hb3 q hq2
        · intro ev hev
          rcases List.mem_cons.mp hev with rfl | hev2
          · rfl
          · revert hev2
            split
            · intro hev2
              simp only [List.mem_singleton] at hev2
              subst hev2
              rfl
            · intro hev2
              simp at hev2
  · split
    · split
      · exact ⟨⟨hb1, hb2, hb3⟩, by simp⟩
      · split
        · exact ⟨⟨hb1, hb2, hb3⟩, by simp⟩
        · next p sess hfound =>
            dsimp only
            have hsessb : b ∉ idsOf sess.callbacks :=
              hb3 _ (mapGet_mem hfound)
            constructor
            · refine ⟨hb1, hb2, ?_⟩
              intro q hq
              exact hb3 q (mem_mapDelete hq)
            · intro ev hev
              rcases List.mem_append.mp hev with h1 | h2
              · exact onClosed_settles hsessb ev h1
              · rcases List.mem_cons.mp h2 with rfl | h3
                · rfl
                · revert h3
                  split
                  · intro h3
                    simp only [List.mem_singleton] at h3
                    subst h3
                    rfl
                  · intro h3
                    simp at h3
    · exact ⟨⟨hb1, hb2, hb3⟩, by simp⟩

theorem routeTail_banned {b : Nat} (c : Connection) (e : Envelope)
    (hb : BannedIn b c) :
    BannedIn b (c.routeTail e).1 ∧
    ∀ ev ∈ (c.routeTail e).2.1, ev.settlesId b = false := by
  obtain ⟨hb1, hb2, hb3⟩ := hb
  unfold Connection.routeTail
  split
  · split
    · next session hfound =>
        split
        · next s' evs hmsg =>
            have hsb := sessOnMessage_banned
              (hb3 _ (mapGet_mem hfound)) hmsg
            dsimp only
            constructor
            · refine ⟨hb1, hb2, ?_⟩
              intro q hq
              rcases mem_mapSet hq with rfl | ⟨hq2, -⟩
              · exact hsb.1
              · exact hb3 q hq2
            · exact fun ev hev => hsb.2 ev hev
        · exact ⟨⟨hb1, hb2, hb3⟩, by simp⟩
    · exact ⟨⟨hb1, hb2, hb3⟩, by simp⟩
  · split
    · split
      · next cb hcb =>
          dsimp only
          have hne : e.idVal ≠ b := fun hh => hb2 (hh ▸ idsOf_mapGet hcb)
          constructor
          · exact ⟨hb1, idsOf_mapDelete hb2, hb3⟩
          · intro ev hev
            simp only [List.mem_singleton] at hev
            subst hev
            cases e.error <;>
              simp only [Ev.settlesId, beq_eq_false_iff_ne] <;> exact hne
      · exact ⟨⟨hb1, hb2, hb3⟩, by simp⟩
    · exact ⟨⟨hb1, hb2, hb3⟩, by simp [Ev.settlesId]⟩

theorem onMessage_banned {b : Nat} (c : Connection) (e : Envelope)
    (hb : BannedIn b c) :
    BannedIn b (c.onMessage e).1 ∧
    ∀ ev ∈ (c.onMessage e).2.1, ev.settlesId b = false := by
  obtain ⟨hbr, hevr⟩ := handleReserved_banned c e hb
  by_cases hok : (c.handleReserved e).2.2 = true
  · rw [onMessage_decomp c e hok]
    obtain ⟨hbt, hevt⟩ := routeTail_banned (c.handleReserved e).1 e hbr
    refine ⟨hbt, ?_⟩
    intro ev hev
    rcases List.mem_append.mp hev with h1 | h2
    · exact hevr ev h1
    · exact hevt ev h2
  · unfold Connection.onMessage
    rw [if_neg hok]
    exact ⟨hbr, hevr⟩

theorem onClose_banned {b : Nat} (c : Connection) (hb : BannedIn b c) :
    BannedIn b c.onClose.1 ∧
    ∀ ev ∈ c.onClose.2, ev.settlesId b = false := by
  obtain ⟨hb1, hb2, hb3⟩ := hb
  unfold Connection.onClose
  split
  · exact ⟨⟨hb1, hb2, hb3⟩, by simp⟩
  · dsimp only
    refine ⟨⟨hb1, by simp [idsOf], by simp⟩, ?_⟩
    intro ev hev
    rcases List.mem_append.mp hev with h1 | h2
    · rcases List.mem_append.mp h1 with h3 | h4
      · obtain ⟨p, hp, rfl⟩ := List.mem_map.mp h3
        simp only [Ev.settlesId, beq_eq_false_iff_ne]
        exact fun hpb => hb2 (mem_idsOf.mpr ⟨p, hp, hpb⟩)
      · obtain ⟨l, hl, hevl⟩ := List.mem_flatten.mp h4
        obtain ⟨q, hq, rfl⟩ := List.mem_map.mp hl
        exact onClosed_settles (hb3 q hq) ev hevl
    · simp only [List.mem_singleton] at h2
      subst h2
      rfl

theorem send_banned {b : Nat} (c : Connection) (m : String)
    (p : Option Params) (hb : BannedIn b c) :
    BannedIn b (c.send m p).1 ∧
    ∀ ev ∈ (c.send m p).2, ev.settlesId b = false := by
  obtain ⟨hb1, hb2, hb3⟩ := hb
  have hsend : c.send m p =
      ({ c with
          lastId := c.lastId + 1
          callbacks := mapSet c.callbacks (c.lastId + 1) ⟨m⟩ },
        [Ev.transportSend ⟨none, m, p, c.lastId + 1⟩]) := rfl
  rw [hsend]
  refine ⟨⟨Nat.le_succ_of_le hb1, ?_, hb3⟩, by simp [Ev.settlesId]⟩
  intro hbmem
  obtain ⟨q, hq, hqb⟩ := mem_idsOf.mp hbmem
  rcases mem_mapSet hq with rfl | ⟨hq2, -⟩
  · have : c.lastId + 1 = b := hqb
    omega
  · exact hb2 (mem_idsOf.mpr ⟨q, hq2, hqb⟩)

theorem runStep_banned {b : Nat} (c : Connection) (st : Step)
    (hb : BannedIn b c) :
    BannedIn b (runStep c st).1 ∧
    ∀ ev ∈ (runStep c st).2, ev.settlesId b = false := by
  cases st with
  | deliver e =>
      simp only [runStep]
      split
      · exact ⟨hb, by simp⟩
      · exact onMessage_banned c e hb
  | close => exact onClose_banned c hb
  | connSend m p => exact send_banned c m p hb
  | sessSend sid m p =>
      simp only [runStep]
      split
      · next s hfound =>
          dsimp only
          obtain ⟨hb1, hb2, hb3⟩ := hb
          have hsess : b ∉ idsOf s.callbacks := hb3 _ (mapGet_mem hfound)
          by_cases hcon : s.connection = false
          · have hr : s.send c m p =
                (s, c, [], .rejected (sessionClosedMsg m s.targetType)) := by
              simp [CDPSession.send, hcon]
            rw [hr]
            refine ⟨⟨hb1, hb2, ?_⟩, by simp⟩
            intro q hq
            rcases mem_mapSet hq with rfl | ⟨hq2, -⟩
            · exact hsess
            · exact hb3 q hq2
          · have hr : s.send c m p =
                ({ s with callbacks := mapSet s.callbacks (c.lastId + 1) ⟨m⟩ },
                  { c with lastId := c.lastId + 1 },
                  [Ev.transportSend ⟨s.sessionId, m, p, c.lastId + 1⟩],
                  .pending (c.lastId + 1)) := by
              simp [CDPSession.send, Connection.rawSend, hcon]
            rw [hr]
            refine ⟨⟨Nat.le_succ_of_le hb1, hb2, ?_⟩,
              by simp [Ev.settlesId]⟩
            intro q hq
            rcases mem_mapSet hq with rfl | ⟨hq2, -⟩
            · intro hbmem
              obtain ⟨q2, hq3, hq3b⟩ := mem_idsOf.mp hbmem
              rcases mem_mapSet hq3 with rfl | ⟨hq4, -⟩
              · have : c.lastId + 1 = b := hq3b
                omega
              · exact hsess (mem_idsOf.mpr ⟨q2, hq4, hq3b⟩)
            · exact hb3 q hq2
      · exact ⟨hb, by simp⟩

theorem run_banned {b : Nat} (steps : List Step) (c : Connection)
    (hb : BannedIn b c) :
    ∀ ev ∈ (run c steps).2, ev.settlesId b = false := by
  induction steps generalizing c with
  | nil => simp [run]
  | cons st rest ih =>
      intro ev hev
      obtain ⟨hb', hev'⟩ := runStep_banned c st hb
      rcases List.mem_append.mp hev with h1 | h2
      · exact hev' ev h1
      · exact ih (runStep c st).1 hb' ev h2

/-- C10: when an attach notification arrives carrying a session id that
is already registered in the session map, the router registers a fresh
Session under that id, replacing the previously registered Session
without invoking its closure routine — the step settles no pending call
and emits no disconnected event — and every pending call in the replaced
Session's table is left permanently unsettled: no later stimulus
(delivery, caller send, or closure) ever settles any of its request ids.
The side conditions on those ids (bounded by the counter and present in
no other table) hold in every state the multiplexer actually reaches,
since ids are handed out fresh from the shared counter. -/
theorem claim_C10 (c : Connection) (e : Envelope) (p : Params)
    (k : Option String) (old : CDPSession) (ti : TargetInfo)
    (hm : e.method = some "Target.attachedToTarget")
    (hp : e.params = some p) (hps : p.sessionId = k)
    (hti : p.targetInfo = some ti) (hid0 : e.id = none)
    (hold : mapGet c.sessions k = some old)
    (hb : ∀ b ∈ idsOf old.callbacks,
      b ≤ c.lastId ∧ b ∉ idsOf c.callbacks ∧
      ∀ q ∈ c.sessions, q.1 ≠ k → b ∉ idsOf q.2.callbacks) :
    (c.onMessage e).2.2 = true ∧
    mapGet (c.onMessage e).1.sessions k = some ⟨k, ti.type, [], true⟩ ∧
    (∀ ev ∈ (c.onMessage e).2.1,
      ev.isSettle = false ∧ ev.isDisconnected = false) ∧
    (∀ steps, ∀ b ∈ idsOf old.callbacks,
      ∀ ev ∈ (run (c.onMessage e).1 steps).2, ev.settlesId b = false) := by
  have hid : e.idTruthy = false := by simp [Envelope.idTruthy, hid0]
  have hhr := handleReserved_attach c hm hp hti
  rw [hps] at hhr
  have hok : (c.handleReserved e).2.2 = true := by rw [hhr]
  have hdecomp := onMessage_decomp c e hok
  obtain ⟨hsess, hok2, -, hevt⟩ := routeTail_noId (c.handleReserved e).1 e hid
  have hbanA : ∀ b ∈ idsOf old.callbacks,
      BannedIn b (c.handleReserved e).1 := by
    intro b hbmem
    obtain ⟨h1, h2, h3⟩ := hb b hbmem
    rw [hhr]
    refine ⟨h1, h2, ?_⟩
    intro q hq
    rcases mem_mapSet hq with rfl | ⟨hq2, hq3⟩
    · simp [idsOf]
    · exact h3 q hq2 hq3
  refine ⟨by rw [hdecomp]; exact hok2, ?_, ?_, ?_⟩
  · rw [hdecomp]
    dsimp only
    rw [hsess, hhr]
    exact mapGet_set_self _ _ _
  · rw [hdecomp]
    intro ev hev
    rcases List.mem_append.mp hev with h1 | h2
    · rw [hhr] at h1
      dsimp only at h1
      rcases List.mem_cons.mp h1 with rfl | h3
      · exact ⟨rfl, rfl⟩
      · revert h3
        split
        · intro h3
          simp only [List.mem_singleton] at h3
          subst h3
          exact ⟨rfl, rfl⟩
        · intro h3
          simp at h3
    · exact hevt ev h2
  · intro steps b hbmem
    have hban : BannedIn b (c.onMessage e).1 := by
      rw [hdecomp]
      exact (routeTail_banned _ e (hbanA b hbmem)).1
    exact run_banned steps _ hban

/-- Witness for C10: a duplicate attach for "S" replaces the old session
(whose call id 5 is pending) with a fresh empty session, and even a
subsequent full closure — which force-settles every remaining call —
never settles id 5. -/
theorem claim_C10_witness :
    mapGet (Connection.onMessage
        ⟨"ws://test", 9,
          [(some "S", ⟨some "S", "page", [(5, ⟨"Old.m"⟩)], true⟩)],
          false, []⟩
        { method := some "Target.attachedToTarget",
          params := some { sessionId := some "S",
                           targetInfo := some ⟨"page", "T"⟩ } }).1.sessions
      (some "S") = some ⟨some "S", "page", [], true⟩ ∧
    Ev.settleErr (.sess (some "S")) 5 (targetClosedMsg "Old.m") none ∉
      (run (Connection.onMessage
        ⟨"ws://test", 9,
          [(some "S", ⟨some "S", "page", [(5, ⟨"Old.m"⟩)], true⟩)],
          false, []⟩
        { method := some "Target.attachedToTarget",
          params := some { sessionId := some "S",
                           targetInfo := some ⟨"page", "T"⟩ } }).1
        [.close]).2 := by
  have h := claim_C10
    ⟨"ws://test", 9,
      [(some "S", ⟨some "S", "page", [(5, ⟨"Old.m"⟩)], true⟩)],
      false, []⟩
    { method := some "Target.attachedToTarget",
      params := some { sessionId := some "S",
                       targetInfo := some ⟨"page", "T"⟩ } }
    { sessionId := some "S", targetInfo := some ⟨"page", "T"⟩ }
    (some "S") ⟨some "S", "page", [(5, ⟨"Old.m"⟩)], true⟩ ⟨"page", "T"⟩
    rfl rfl rfl rfl rfl (by decide) (by decide)
  refine ⟨h.2.1, ?_⟩
  intro hmem
  exact absurd (h.2.2.2 [.close] 5 (by decide) _ hmem) (by decide)

end CDP
